import Mathlib

/-
  Verification development for the audio-upload webhook client of the
  muisti-mestari repository (class WebhookService, method sendAudioToWebhook).

  The TypeScript source is shallowly embedded: the per-attempt processing,
  the retry loop with exponential backoff, the response normalization and the
  abort-controller instance state are translated into executable Lean
  definitions, and the specification claims are settled as theorems about
  those definitions.

  Platform builtins used by the source (JSON.parse, atob, URL.createObjectURL,
  Blob, AbortController, fetch outcomes) are modelled at the precision the
  client exercises; each model carries a comment stating its scope.
-/

namespace Muisti

/-! ### JavaScript values

  The decoded response body (the value `data` in the source) is a JSON value.
  Field order is kept; duplicate keys are resolved to the last occurrence at
  access time, matching JS object literal semantics after JSON.parse. -/

inductive JsonVal where
  | null
  | bool (b : Bool)
  | num (n : Int)
  | str (s : String)
  | arr (elems : List JsonVal)
  | obj (fields : List (String × JsonVal))

/-- Last binding of a key in a field list: JSON.parse keeps the last duplicate. -/
def getLastField : List (String × JsonVal) → String → Option JsonVal
  | [], _ => none
  | (k1, v) :: rest, k =>
    match getLastField rest k with
    | some v2 => some v2
    | none => if k1 = k then some v else none

/-- JS truthiness of a possibly-undefined value (none stands for undefined).
    Used for the guards data.success && data.textResponse && data.audioResponse
    and for the fallback chains with the || operator. -/
def truthy : Option JsonVal → Bool
  | none => false
  | some JsonVal.null => false
  | some (JsonVal.bool b) => b
  | some (JsonVal.num n) => !(n == 0)
  | some (JsonVal.str s) => !(s == "")
  | some (JsonVal.obj _) => true
  | some (JsonVal.arr _) => true

/-- JS member access v.k: reading a property of null throws a TypeError
    (modelled as Except.error ()); on non-objects it yields undefined (none);
    on objects it looks the key up. -/
def jsGet : JsonVal → String → Except Unit (Option JsonVal)
  | JsonVal.null, _ => Except.error ()
  | JsonVal.obj fs, k => Except.ok (getLastField fs k)
  | _, _ => Except.ok none

/-! ### JSON.parse model

  Recursive-descent parser, structural on a fuel counter so every definition
  is a computable def that the kernel can evaluate.  Scope of the model: the
  JSON fragment this client exchanges - objects, arrays, strings (with the
  usual escapes), integer numbers, booleans, null.  Fractional and exponent
  number literals are outside the modelled fragment (they make the parse fail
  here; no claim concerns them). -/

def quoteChar : Char := Char.ofNat 34
def lbraceChar : Char := Char.ofNat 123
def rbraceChar : Char := Char.ofNat 125

def isWsC (c : Char) : Bool := c = ' ' || c = '\t' || c = '\n' || c = '\r'

def skipWs (cs : List Char) : List Char := cs.dropWhile isWsC

def hexVal (c : Char) : Option Nat :=
  if '0' ≤ c ∧ c ≤ '9' then some (c.toNat - 48)
  else if 'a' ≤ c ∧ c ≤ 'f' then some (c.toNat - 87)
  else if 'A' ≤ c ∧ c ≤ 'F' then some (c.toNat - 55)
  else none

def escChar (c : Char) : Option Char :=
  if c = quoteChar then some quoteChar
  else if c = '\\' then some '\\'
  else if c = '/' then some '/'
  else if c = 'n' then some '\n'
  else if c = 't' then some '\t'
  else if c = 'r' then some '\r'
  else if c = 'b' then some (Char.ofNat 8)
  else if c = 'f' then some (Char.ofNat 12)
  else none

/-- Body of a JSON string after the opening quote, accumulating into acc. -/
def strBody : Nat → List Char → String → Option (String × List Char)
  | 0, _, _ => none
  | _ + 1, [], _ => none
  | fuel + 1, c :: rest, acc =>
    if c = quoteChar then some (acc, rest)
    else if c = '\\' then
      match rest with
      | [] => none
      | e :: rest2 =>
        if e = 'u' then
          match rest2 with
          | a :: b :: c2 :: d :: rest3 =>
            match hexVal a, hexVal b, hexVal c2, hexVal d with
            | some x, some y, some z, some w =>
              strBody fuel rest3 (acc.push (Char.ofNat (((x * 16 + y) * 16 + z) * 16 + w)))
            | _, _, _, _ => none
          | _ => none
        else
          match escChar e with
          | some ec => strBody fuel rest2 (acc.push ec)
          | none => none
    else strBody fuel rest (acc.push c)

def digitsToNat : List Char → Nat → Nat
  | [], acc => acc
  | c :: rest, acc => digitsToNat rest (acc * 10 + (c.toNat - 48))

/-- Unsigned JSON integer literal: digits, no leading zero except "0" itself;
    a following fraction or exponent marker is outside the modelled fragment. -/
def parseNatNum (cs : List Char) : Option (Nat × List Char) :=
  let ds := cs.takeWhile Char.isDigit
  let rest := cs.drop ds.length
  match ds with
  | [] => none
  | '0' :: _ :: _ => none
  | _ =>
    match rest with
    | c :: _ =>
      if c = '.' || c = 'e' || c = 'E' then none
      else some (digitsToNat ds 0, rest)
    | [] => some (digitsToNat ds 0, [])

def parseNum (cs : List Char) : Option (Int × List Char) :=
  match cs with
  | '-' :: rest =>
    match parseNatNum rest with
    | some (n, rest2) => some (-(n : Int), rest2)
    | none => none
  | _ =>
    match parseNatNum cs with
    | some (n, rest2) => some ((n : Int), rest2)
    | none => none

/-- Parser mode: a single value, the members of an object after the opening
    brace (first member onward), or the elements of an array. -/
inductive PK where
  | val
  | objFields
  | arrElems

def parseP : Nat → PK → List Char → Option (JsonVal × List Char)
  | 0, _, _ => none
  | fuel + 1, PK.val, cs =>
    match skipWs cs with
    | 'n' :: 'u' :: 'l' :: 'l' :: rest => some (JsonVal.null, rest)
    | 't' :: 'r' :: 'u' :: 'e' :: rest => some (JsonVal.bool true, rest)
    | 'f' :: 'a' :: 'l' :: 's' :: 'e' :: rest => some (JsonVal.bool false, rest)
    | '[' :: rest =>
      match skipWs rest with
      | ']' :: rest2 => some (JsonVal.arr [], rest2)
      | rest2 => parseP fuel PK.arrElems rest2
    | c :: rest =>
      if c = quoteChar then
        match strBody (rest.length + 1) rest "" with
        | some (s, rest2) => some (JsonVal.str s, rest2)
        | none => none
      else if c = lbraceChar then
        match skipWs rest with
        | c2 :: rest2 =>
          if c2 = rbraceChar then some (JsonVal.obj [], rest2)
          else parseP fuel PK.objFields (c2 :: rest2)
        | [] => none
      else
        match parseNum (c :: rest) with
        | some (n, rest2) => some (JsonVal.num n, rest2)
        | none => none
    | [] => none
  | fuel + 1, PK.objFields, cs =>
    match skipWs cs with
    | c :: rest =>
      if c = quoteChar then
        match strBody (rest.length + 1) rest "" with
        | some (k, rest2) =>
          match skipWs rest2 with
          | c2 :: rest3 =>
            if c2 = ':' then
              match parseP fuel PK.val rest3 with
              | some (v, rest4) =>
                match skipWs rest4 with
                | c3 :: rest5 =>
                  if c3 = ',' then
                    match parseP fuel PK.objFields rest5 with
                    | some (JsonVal.obj fs, rest6) => some (JsonVal.obj ((k, v) :: fs), rest6)
                    | _ => none
                  else if c3 = rbraceChar then some (JsonVal.obj [(k, v)], rest5)
                  else none
                | [] => none
              | none => none
            else none
          | [] => none
        | none => none
      else none
    | [] => none
  | fuel + 1, PK.arrElems, cs =>
    match parseP fuel PK.val cs with
    | some (v, rest) =>
      match skipWs rest with
      | c :: rest2 =>
        if c = ',' then
          match parseP fuel PK.arrElems rest2 with
          | some (JsonVal.arr vs, rest3) => some (JsonVal.arr (v :: vs), rest3)
          | _ => none
        else if c = ']' then some (JsonVal.arr [v], rest2)
        else none
      | [] => none
    | none => none

/-- Model of the JS builtin JSON.parse restricted to the fragment above:
    parse one value, then require only whitespace to remain. -/
def JSON.parse (t : String) : Option JsonVal :=
  match parseP (t.length + 2) PK.val t.toList with
  | some (v, rest) => if (skipWs rest).isEmpty then some v else none
  | none => none

/-! ### atob model (forgiving base64 decode, WHATWG)

  The source does atob(...) then charCodeAt into a byte array, so the model
  goes straight to the byte list; failure (InvalidCharacterError) is none. -/

def b64Val (c : Char) : Option Nat :=
  if 'A' ≤ c ∧ c ≤ 'Z' then some (c.toNat - 65)
  else if 'a' ≤ c ∧ c ≤ 'z' then some (c.toNat - 97 + 26)
  else if '0' ≤ c ∧ c ≤ '9' then some (c.toNat - 48 + 52)
  else if c = '+' then some 62
  else if c = '/' then some 63
  else none

def isB64Ws (c : Char) : Bool :=
  c = ' ' || c = '\t' || c = '\n' || c = '\r' || c = Char.ofNat 12

/-- Drop one trailing padding sign if present. -/
def stripPad (cs : List Char) : List Char :=
  match cs.getLast? with
  | some c => if c = '=' then cs.dropLast else cs
  | none => cs

def mapB64 : List Char → Option (List Nat)
  | [] => some []
  | c :: rest =>
    match b64Val c, mapB64 rest with
    | some v, some vs => some (v :: vs)
    | _, _ => none

/-- Reassemble 6-bit groups into bytes (final group of 2 or 3 allowed). -/
def sixToBytes : List Nat → Option (List Nat)
  | [] => some []
  | [a, b] => some [a * 4 + b / 16]
  | [a, b, c] => some [a * 4 + b / 16, (b % 16) * 16 + c / 4]
  | a :: b :: c :: d :: rest =>
    match sixToBytes rest with
    | some bs => some ((a * 4 + b / 16) :: ((b % 16) * 16 + c / 4) :: ((c % 4) * 64 + d) :: bs)
    | none => none
  | [_] => none

/-- Model of the JS builtin atob as byte-list output: strip ASCII whitespace,
    strip up to two trailing padding signs when the length is a multiple of
    four, reject length 1 mod 4 and out-of-alphabet characters, decode. -/
def atob (s : String) : Option (List Nat) :=
  let cs0 := s.toList.filter (fun c => !(isB64Ws c))
  let cs := if cs0.length % 4 == 0 then stripPad (stripPad cs0) else cs0
  if cs.length % 4 == 1 then none
  else
    match mapB64 cs with
    | some vs => sixToBytes vs
    | none => none

/-! ### Small string helpers (substring tests used by the source) -/

/-- Does the first list start with the second. -/
def hasPre : List Char → List Char → Bool
  | _, [] => true
  | [], _ :: _ => false
  | c :: rest, p :: ps => c = p && hasPre rest ps

def containsList : List Char → List Char → Bool
  | [], pat => pat.isEmpty
  | c :: rest, pat => hasPre (c :: rest) pat || containsList rest pat

/-- Model of String.prototype.includes (case-sensitive substring test). -/
def containsSub (hay pat : String) : Bool := containsList hay.toList pat.toList

/-! ### Blobs, object URLs and the effect state

  A Blob is its byte content plus its declared MIME type label; the source
  only ever re-wraps bytes with a new label (new Blob([old], type)), never
  re-encodes.  URL.createObjectURL registers the blob in the browser URL
  store and returns a fresh object URL; the store is modelled as a counter
  plus the list of registered blobs, so freshness is observable. -/

structure Blob where
  bytes : List Nat
  type : String
deriving DecidableEq, Repr

structure Effects where
  ctr : Nat
  blobs : List Blob
deriving DecidableEq, Repr

def objectURL (n : Nat) : String := "blob:local/" ++ toString n

/-- Model of URL.createObjectURL: a fresh URL per call, blob registered. -/
def createObjectURL (b : Blob) (e : Effects) : String × Effects :=
  (objectURL e.ctr, ⟨e.ctr + 1, e.blobs ++ [b]⟩)

def initialEffects : Effects := ⟨0, []⟩

/-! ### WebhookService: constants, mobile detection, blob preparation -/

def MAX_RETRIES : Nat := 3
def TIMEOUT_MS : Nat := 20000
def RETRY_DELAY_MS : Nat := 1000

/-- Backoff wait before retry attempt number retries (retries >= 1):
    RETRY_DELAY_MS * Math.pow(2, retries - 1), source line 56. -/
def backoffDelay (retries : Nat) : Nat := RETRY_DELAY_MS * 2 ^ (retries - 1)

/-- The user-agent markers of the mobile test, source lines 8-10.  The regex
    alternation of literal words with the i flag is modelled as a
    case-insensitive substring test for each marker. -/
def mobileMarks : List String :=
  ["android", "webos", "iphone", "ipad", "ipod", "blackberry", "iemobile", "opera mini"]

/-- ASCII lowering: the case-insensitive regex test over the ASCII markers
    above only needs ASCII case folding. -/
def lowerChar (c : Char) : Char :=
  if 'A' ≤ c ∧ c ≤ 'Z' then Char.ofNat (c.toNat + 32) else c

def isMobile (ua : String) : Bool :=
  mobileMarks.any (fun p => containsList (ua.toList.map lowerChar) p.toList)

/-- Blob preparation, source lines 37-42: on mobile, a blob whose declared
    type does not include "webm" is re-wrapped with type audio/webm, bytes
    unchanged; otherwise the blob is passed through untouched. -/
def processBlob (ua : String) (b : Blob) : Blob :=
  if isMobile ua && !(containsSub b.type "webm") then ⟨b.bytes, "audio/webm"⟩ else b

/-! ### Per-attempt outcomes and errors

  What the environment (fetch raced against the 20 s timeout, with the
  abort signal attached) delivers for one attempt, and how the catch block
  classifies a failure on the final attempt (source lines 161-181):
  AbortError becomes the cancelled message, a TypeError whose message
  includes Failed to fetch becomes the network message, everything else
  (HTTP status error, timeout, parse and normalization errors) becomes the
  generic server-failure message. -/

inductive FetchOutcome where
  | aborted
  | netFailure
  | timeout
  | response (status : Nat) (body : Option String)

inductive AttemptError where
  | abortErr
  | netErr
  | timeoutErr
  | httpErr (status : Nat)
  | parseErr
  | normErr
deriving DecidableEq, Repr

inductive TerminalError where
  | cancelled
  | network
  | server
  | unexpected
deriving DecidableEq, Repr

def classify : AttemptError → TerminalError
  | AttemptError.abortErr => TerminalError.cancelled
  | AttemptError.netErr => TerminalError.network
  | _ => TerminalError.server

/-- response.ok: status in the inclusive range 200 to 299. -/
def statusOk (s : Nat) : Bool := 200 ≤ s && s ≤ 299

/-! ### Body decoding, source lines 91-112

  response.json() parses the body text; if that fails the clone is read as
  text and JSON.parse is tried again on the same text (the secondary parse of
  the source, same semantics, hence the repeated match); if that also fails
  the raw text is wrapped as an object with a textResponse field.  A body
  with no extractable text makes the attempt throw (parse error). -/

def parseBody (body : Option String) : Except AttemptError JsonVal :=
  match body with
  | none => Except.error AttemptError.parseErr
  | some t =>
    match JSON.parse t with
    | some j => Except.ok j
    | none =>
      match JSON.parse t with
      | some j => Except.ok j
      | none => Except.ok (JsonVal.obj [("textResponse", JsonVal.str t)])

/-! ### Response normalization, source lines 114-156 -/

/-- String() conversion applied by JSON.parse to its argument when the field
    is not already a string.  Arrays render their scalar elements joined by
    commas; nested arrays are outside the modelled fragment. -/
def jsScalarToString : JsonVal → String
  | JsonVal.str s => s
  | JsonVal.num n => toString n
  | JsonVal.bool true => "true"
  | JsonVal.bool false => "false"
  | JsonVal.null => ""
  | JsonVal.obj _ => "[object Object]"
  | JsonVal.arr _ => ""

def jsToString : JsonVal → String
  | JsonVal.str s => s
  | JsonVal.num n => toString n
  | JsonVal.bool true => "true"
  | JsonVal.bool false => "false"
  | JsonVal.null => "null"
  | JsonVal.obj _ => "[object Object]"
  | JsonVal.arr xs => String.intercalate "," (xs.map jsScalarToString)

/-- textData, source lines 117-123: JSON.parse(data.textResponse), falling
    back to an object whose answer field is the raw value. -/
def textDataOf (tv : JsonVal) : JsonVal :=
  match JSON.parse (jsToString tv) with
  | some j => j
  | none => JsonVal.obj [("answer", tv)]

/-- The data-URL stripping of source line 130: one anchored match of
    data:audio/ then at least one character other than the semicolon, then
    ;base64, - removed when present, otherwise the string is unchanged. -/
def stripDataUrl (s : String) : String :=
  let cs := s.toList
  if hasPre cs ("data:audio/".toList) then
    let rest := cs.drop 11
    let run := rest.takeWhile (fun c => c ≠ ';')
    if 1 ≤ run.length ∧ hasPre (rest.drop run.length) (";base64,".toList) then
      String.mk ((rest.drop run.length).drop 8)
    else s
  else s

/-- The value the source returns to its caller: either the JSON.stringify of
    a text plus audio URL pair (line 141) or a bare text value (lines 147,
    151, 155). -/
inductive SendValue where
  | withAudio (text : JsonVal) (audioUrl : String)
  | textOnly (text : JsonVal)

/-- The fallback chains of lines 142, 147, 151 and 155:
    x.answer || x.response || the fixed placeholder.  Member access on null
    throws. -/
def answerOf (td : JsonVal) : Except Unit JsonVal :=
  match jsGet td "answer" with
  | Except.error e => Except.error e
  | Except.ok a =>
    if truthy a then Except.ok (a.getD JsonVal.null)
    else
      match jsGet td "response" with
      | Except.error e => Except.error e
      | Except.ok r =>
        if truthy r then Except.ok (r.getD JsonVal.null)
        else Except.ok (JsonVal.str "Vastausta ei saatu.")

/-- The branch guard of source line 115:
    data.success && data.textResponse && data.audioResponse, with JS
    short-circuit evaluation and truthiness; member access on null throws. -/
def structGuard (data : JsonVal) : Except Unit Bool :=
  match jsGet data "success" with
  | Except.error e => Except.error e
  | Except.ok s =>
    if truthy s then
      match jsGet data "textResponse" with
      | Except.error e => Except.error e
      | Except.ok t =>
        if truthy t then
          match jsGet data "audioResponse" with
          | Except.error e => Except.error e
          | Except.ok a => Except.ok (truthy a)
        else Except.ok false
    else Except.ok false

/-- The structured branch, source lines 116-152, after the guard passed and
    the two payload fields were re-read.  When the audio payload is a string,
    the base64 conversion runs inside a try: on success the object URL is
    created and the text-with-audio pair is returned (the answer selection
    runs after URL creation, inside the same try, so a throwing selection
    leaves the URL created); on atob failure the catch falls back to the
    text-only selection.  A non-string audio value goes text-only directly.
    A throwing selection (textData is null) propagates as a normalization
    error in every branch, mirroring the rethrow out of the catch. -/
def structuredCore (tv av : JsonVal) (eff : Effects) :
    Except AttemptError SendValue × Effects :=
  let textData := textDataOf tv
  match av with
  | JsonVal.str s =>
    match atob (stripDataUrl s) with
    | some bytes =>
      let blob : Blob := ⟨bytes, "audio/mpeg"⟩
      let p := createObjectURL blob eff
      match answerOf textData with
      | Except.ok txt => (Except.ok (SendValue.withAudio txt p.1), p.2)
      | Except.error _ => (Except.error AttemptError.normErr, p.2)
    | none =>
      match answerOf textData with
      | Except.ok txt => (Except.ok (SendValue.textOnly txt), eff)
      | Except.error _ => (Except.error AttemptError.normErr, eff)
  | _ =>
    match answerOf textData with
    | Except.ok txt => (Except.ok (SendValue.textOnly txt), eff)
    | Except.error _ => (Except.error AttemptError.normErr, eff)

/-- Normalization of the decoded body, source lines 114-156: the structured
    branch when the guard holds, otherwise the legacy fallback
    data.answer || data.response || placeholder (lines 153-156). -/
def normalizeData (data : JsonVal) (eff : Effects) :
    Except AttemptError SendValue × Effects :=
  match structGuard data with
  | Except.error _ => (Except.error AttemptError.normErr, eff)
  | Except.ok true =>
    match jsGet data "textResponse", jsGet data "audioResponse" with
    | Except.ok (some tv), Except.ok (some av) => structuredCore tv av eff
    | _, _ => (Except.error AttemptError.normErr, eff)
  | Except.ok false =>
    match answerOf data with
    | Except.ok v => (Except.ok (SendValue.textOnly v), eff)
    | Except.error _ => (Except.error AttemptError.normErr, eff)

/-- One attempt of the try block, source lines 52-156: the raced fetch
    outcome, the ok check of line 84, body decoding, normalization. -/
def attemptStep (o : FetchOutcome) (eff : Effects) :
    Except AttemptError SendValue × Effects :=
  match o with
  | FetchOutcome.aborted => (Except.error AttemptError.abortErr, eff)
  | FetchOutcome.netFailure => (Except.error AttemptError.netErr, eff)
  | FetchOutcome.timeout => (Except.error AttemptError.timeoutErr, eff)
  | FetchOutcome.response status body =>
    if !(statusOk status) then (Except.error (AttemptError.httpErr status), eff)
    else
      match parseBody body with
      | Except.error e => (Except.error e, eff)
      | Except.ok data => normalizeData data eff

/-! ### The retry loop, source lines 47-191 -/

structure RunOut where
  result : Except TerminalError SendValue
  delays : List Nat
  eff : Effects

/-- The while loop of line 51.  The fuel argument is only a structural bound
    on the recursion; run from retries = 0 with fuel at least
    MAX_RETRIES + 2, the guard retries <= MAX_RETRIES always bites first, so
    the fuel-exhaustion arm (mirroring the unreachable code after the loop,
    lines 184-190) is never taken.  delays records every backoff wait
    performed, in order. -/
def sendLoop (outcomes : Nat → FetchOutcome) :
    Nat → Nat → List Nat → Effects → RunOut
  | 0, _, delays, eff => ⟨Except.error TerminalError.unexpected, delays, eff⟩
  | fuel + 1, retries, delays, eff =>
    if retries ≤ MAX_RETRIES then
      let delays2 := if 0 < retries then delays ++ [backoffDelay retries] else delays
      match attemptStep (outcomes retries) eff with
      | (Except.ok v, eff2) => ⟨Except.ok v, delays2, eff2⟩
      | (Except.error e, eff2) =>
        if retries = MAX_RETRIES then ⟨Except.error (classify e), delays2, eff2⟩
        else sendLoop outcomes fuel (retries + 1) delays2 eff2
    else ⟨Except.error TerminalError.unexpected, delays, eff⟩

/-- The whole retry loop of one call, started as the source starts it. -/
def sendRun (outcomes : Nat → FetchOutcome) (eff : Effects) : RunOut :=
  sendLoop outcomes (MAX_RETRIES + 2) 0 [] eff

/-! ### Instance state: the abort controller field, source lines 2, 24-31

  Controllers are identified by generation numbers; the instance remembers
  the current controller and which controllers have been aborted.  A fetch
  issued with an aborted signal rejects with AbortError, which the
  environment function of a run delivers as FetchOutcome.aborted. -/

structure WSState where
  current : Option Nat
  abortedIds : List Nat

/-- Entry of sendAudioToWebhook, source lines 24-31: abort any previous
    controller, install a fresh one. -/
def beginSend (st : WSState) (fresh : Nat) : WSState :=
  match st.current with
  | some g => ⟨some fresh, st.abortedIds ++ [g]⟩
  | none => ⟨some fresh, st.abortedIds⟩

/-- cleanup, source lines 193-198. -/
def cleanup (st : WSState) : WSState :=
  match st.current with
  | some g => ⟨none, st.abortedIds ++ [g]⟩
  | none => st

structure SendOutput where
  state : WSState
  uploaded : Blob
  run : RunOut

/-- The full call: abort the previous controller and install a fresh one,
    prepare the blob, run the retry loop against the environment outcomes. -/
def sendAudioToWebhook (st : WSState) (fresh : Nat) (ua : String) (audioBlob : Blob)
    (outcomes : Nat → FetchOutcome) (eff : Effects) : SendOutput :=
  ⟨beginSend st fresh, processBlob ua audioBlob, sendRun outcomes eff⟩

/-! ### The NormalizedResult view of the returned value

  The source returns a string: either JSON.stringify of a text and audioUrl
  pair or the bare text; the caller (stopRecordingAndSend) parses that string
  back into text plus optional audio reference.  NormalizedResult is that
  decoded view, the shape named by the specification. -/

structure NormalizedResult where
  text : JsonVal
  audioUrl : Option String

def toNormalized : SendValue → NormalizedResult
  | SendValue.withAudio t u => ⟨t, some u⟩
  | SendValue.textOnly t => ⟨t, none⟩

def textOf : SendValue → JsonVal
  | SendValue.withAudio t _ => t
  | SendValue.textOnly t => t

/-- The text component of a normalization outcome, none on a thrown error. -/
def decodeText (p : Except AttemptError SendValue × Effects) : Option JsonVal :=
  match p.1 with
  | Except.ok v => some (textOf v)
  | Except.error _ => none

def okQ : Except AttemptError SendValue → Bool
  | Except.ok _ => true
  | Except.error _ => false

/-- The blobs registered by one normalization, beyond those already there. -/
def createdBlobs (data : JsonVal) (e : Effects) : List Blob :=
  (normalizeData data e).2.blobs.drop e.blobs.length

/-! ### Helper lemmas on the loop and on normalization -/

theorem sendLoop_ok (outcomes : Nat → FetchOutcome) (fuel retries : Nat)
    (delays : List Nat) (eff : Effects) (v : SendValue) (eff2 : Effects)
    (hle : retries ≤ MAX_RETRIES)
    (hstep : attemptStep (outcomes retries) eff = (Except.ok v, eff2)) :
    sendLoop outcomes (fuel + 1) retries delays eff =
      ⟨Except.ok v, if 0 < retries then delays ++ [backoffDelay retries] else delays, eff2⟩ := by
  simp [sendLoop, hle, hstep]

theorem sendLoop_fail_cont (outcomes : Nat → FetchOutcome) (fuel retries : Nat)
    (delays : List Nat) (eff : Effects) (e : AttemptError) (eff2 : Effects)
    (hle : retries ≤ MAX_RETRIES) (hne : retries ≠ MAX_RETRIES)
    (hstep : attemptStep (outcomes retries) eff = (Except.error e, eff2)) :
    sendLoop outcomes (fuel + 1) retries delays eff =
      sendLoop outcomes fuel (retries + 1)
        (if 0 < retries then delays ++ [backoffDelay retries] else delays) eff2 := by
  simp [sendLoop, hle, hne, hstep]

theorem sendLoop_fail_last (outcomes : Nat → FetchOutcome) (fuel : Nat)
    (delays : List Nat) (eff : Effects) (e : AttemptError) (eff2 : Effects)
    (hstep : attemptStep (outcomes MAX_RETRIES) eff = (Except.error e, eff2)) :
    sendLoop outcomes (fuel + 1) MAX_RETRIES delays eff =
      ⟨Except.error (classify e),
        if 0 < MAX_RETRIES then delays ++ [backoffDelay MAX_RETRIES] else delays, eff2⟩ := by
  simp [sendLoop, hstep]

/-- The answer selection only throws when its argument is JSON null. -/
theorem answerOf_ok_of_ne_null (td : JsonVal) (h : td ≠ JsonVal.null) :
    ∃ v, answerOf td = Except.ok v := by
  cases td with
  | null => exact absurd rfl h
  | bool b => exact ⟨_, rfl⟩
  | num n => exact ⟨_, rfl⟩
  | str s => exact ⟨_, rfl⟩
  | arr xs => exact ⟨_, rfl⟩
  | obj fs =>
    simp only [answerOf, jsGet]
    split
    · exact ⟨_, rfl⟩
    · split
      · exact ⟨_, rfl⟩
      · exact ⟨_, rfl⟩

/-- A truthy value is present. -/
theorem truthy_some (o : Option JsonVal) (h : truthy o = true) : ∃ v, o = some v := by
  cases o with
  | none => exact absurd h (by simp [truthy])
  | some v => exact ⟨v, rfl⟩

/-! ## Claim C1 -/

/-- Claim C1, counterexample to the claim as stated.  The claim takes every
    HTTP status outside the half-open interval from 200 to 299 as a failing
    attempt; status 299 lies outside that interval yet response.ok holds for
    it (ok is the inclusive range 200 to 299), so the call resolves on the
    first attempt with no backoff and no rejection, contradicting the
    claimed four failing attempts followed by a terminal rejection. -/
theorem c1_counterexample :
    (¬ (200 ≤ 299 ∧ 299 < 299)) ∧
    sendRun (fun _ => FetchOutcome.response 299 (some "\x7b\"answer\":\"hi\"\x7d"))
        initialEffects =
      ⟨Except.ok (SendValue.textOnly (JsonVal.str "hi")), [], initialEffects⟩ :=
  ⟨by decide, rfl⟩

/-- Claim C1 (amended): for every send call in which every attempt yields an
    HTTP response whose status is not ok (outside the inclusive range 200 to
    299), send performs MAX_RETRIES = 3 retries (four total attempts), waits
    the strictly increasing backoff delays 1000, 2000, 4000 ms before retry
    attempts 1, 2, 3, and after the final attempt fails rejects with the
    terminal server-failure error instead of retrying further. -/
theorem c1_retry_backoff (status : Nat → Nat) (body : Nat → Option String)
    (eff : Effects) (h : ∀ n, statusOk (status n) = false) :
    sendRun (fun n => FetchOutcome.response (status n) (body n)) eff =
      ⟨Except.error TerminalError.server, [1000, 2000, 4000], eff⟩ := by
  have hs : ∀ n e2, attemptStep (FetchOutcome.response (status n) (body n)) e2 =
      (Except.error (AttemptError.httpErr (status n)), e2) := by
    intro n e2
    simp [attemptStep, h n]
  show sendLoop _ 5 0 [] eff = _
  rw [sendLoop_fail_cont _ 4 0 [] eff _ eff (by decide) (by decide) (hs 0 eff),
    sendLoop_fail_cont _ 3 1 _ eff _ eff (by decide) (by decide) (hs 1 eff),
    sendLoop_fail_cont _ 2 2 _ eff _ eff (by decide) (by decide) (hs 2 eff),
    show (2 + 1 : Nat) = MAX_RETRIES from rfl,
    sendLoop_fail_last _ 1 _ eff _ eff (hs 3 eff)]
  simp [backoffDelay, RETRY_DELAY_MS, classify, MAX_RETRIES]

/-- Witness for c1_retry_backoff at status 500 on every attempt. -/
theorem c1_retry_backoff_witness :
    sendRun (fun _ => FetchOutcome.response 500 none) initialEffects =
      ⟨Except.error TerminalError.server, [1000, 2000, 4000], initialEffects⟩ :=
  c1_retry_backoff (fun _ => 500) (fun _ => none) initialEffects (fun _ => rfl)

/-! ## Claim C2 -/

/-- Claim C2, counterexample to the claim as stated.  With the abort signal
    fired, every fetch attempt rejects with AbortError; the code still
    performs the three backoff delays and three further attempts before the
    final attempt maps the AbortError to the terminal cancelled error, so an
    aborted attempt does trigger backoff delays and further retries,
    contradicting the claim that it triggers neither. -/
theorem c2_counterexample :
    sendRun (fun _ => FetchOutcome.aborted) initialEffects =
      ⟨Except.error TerminalError.cancelled, [1000, 2000, 4000], initialEffects⟩ ∧
    ([1000, 2000, 4000] : List Nat) ≠ [] :=
  ⟨rfl, by decide⟩

/-- Claim C2 (amended): an abort failure is treated like any other failure
    on the non-final attempts - the backoff delays and the retries still
    happen (each subsequent fetch on the aborted signal fails again); only
    the final attempt failing with AbortError makes send reject, and then
    with the distinct terminal cancelled error rather than a retryable
    classification. -/
theorem c2_abort_retried (outcomes : Nat → FetchOutcome) (eff : Effects)
    (h : ∀ n, n ≤ MAX_RETRIES → outcomes n = FetchOutcome.aborted) :
    sendRun outcomes eff =
      ⟨Except.error TerminalError.cancelled, [1000, 2000, 4000], eff⟩ := by
  have hs : ∀ n, n ≤ MAX_RETRIES → ∀ e2, attemptStep (outcomes n) e2 =
      (Except.error AttemptError.abortErr, e2) := by
    intro n hn e2
    rw [h n hn]
    rfl
  show sendLoop _ 5 0 [] eff = _
  rw [sendLoop_fail_cont _ 4 0 [] eff _ eff (by decide) (by decide) (hs 0 (by decide) eff),
    sendLoop_fail_cont _ 3 1 _ eff _ eff (by decide) (by decide) (hs 1 (by decide) eff),
    sendLoop_fail_cont _ 2 2 _ eff _ eff (by decide) (by decide) (hs 2 (by decide) eff),
    show (2 + 1 : Nat) = MAX_RETRIES from rfl,
    sendLoop_fail_last _ 1 _ eff _ eff (hs 3 (by decide) eff)]
  simp [backoffDelay, RETRY_DELAY_MS, classify, MAX_RETRIES]

/-- Witness for c2_abort_retried with every attempt aborted. -/
theorem c2_abort_retried_witness :
    sendRun (fun _ => FetchOutcome.aborted) ⟨7, []⟩ =
      ⟨Except.error TerminalError.cancelled, [1000, 2000, 4000], ⟨7, []⟩⟩ :=
  c2_abort_retried (fun _ => FetchOutcome.aborted) ⟨7, []⟩ (fun _ _ => rfl)

/-! ## Claim C3 -/

/-- Claim C3: at most one upload is in flight per instance.  Starting a
    second send aborts the controller of the first (its generation lands in
    the aborted set) and installs the second controller as current; and a
    run whose every attempt fails, with the final attempt rejecting with
    AbortError (which is what every fetch on an aborted signal does),
    settles as the terminal cancelled error, so the superseded first call
    never delivers a result of its own. -/
theorem c3_at_most_one_inflight (st : WSState) (g1 g2 : Nat)
    (outcomes : Nat → FetchOutcome) (eff : Effects)
    (hfail : ∀ n, n ≤ MAX_RETRIES → ∀ e,
      ∃ err, (attemptStep (outcomes n) e).1 = Except.error err)
    (hlast : outcomes MAX_RETRIES = FetchOutcome.aborted) :
    g1 ∈ (beginSend (beginSend st g1) g2).abortedIds ∧
    (beginSend (beginSend st g1) g2).current = some g2 ∧
    (sendRun outcomes eff).result = Except.error TerminalError.cancelled := by
  obtain ⟨cur, ab⟩ := st
  refine ⟨?_, ?_, ?_⟩
  · cases cur <;> simp [beginSend]
  · cases cur <;> simp [beginSend]
  · rcases hp0 : attemptStep (outcomes 0) eff with ⟨r0, eff0⟩
    obtain ⟨e0, he0⟩ := hfail 0 (by decide) eff
    rw [hp0] at he0
    replace he0 : r0 = Except.error e0 := he0
    rw [he0] at hp0
    rcases hp1 : attemptStep (outcomes 1) eff0 with ⟨r1, eff1⟩
    obtain ⟨e1, he1⟩ := hfail 1 (by decide) eff0
    rw [hp1] at he1
    replace he1 : r1 = Except.error e1 := he1
    rw [he1] at hp1
    rcases hp2 : attemptStep (outcomes 2) eff1 with ⟨r2, eff2⟩
    obtain ⟨e2, he2⟩ := hfail 2 (by decide) eff1
    rw [hp2] at he2
    replace he2 : r2 = Except.error e2 := he2
    rw [he2] at hp2
    show (sendLoop _ 5 0 [] eff).result = _
    rw [sendLoop_fail_cont _ 4 0 [] eff _ eff0 (by decide) (by decide) hp0,
      sendLoop_fail_cont _ 3 1 _ eff0 _ eff1 (by decide) (by decide) hp1,
      sendLoop_fail_cont _ 2 2 _ eff1 _ eff2 (by decide) (by decide) hp2,
      show (2 + 1 : Nat) = MAX_RETRIES from rfl,
      sendLoop_fail_last _ 1 _ eff2 AttemptError.abortErr eff2 (by rw [hlast]; rfl)]
    rfl

/-- Witness for c3_at_most_one_inflight: a fresh instance, two overlapping
    calls with generations 0 and 1, every attempt of the first call aborted. -/
theorem c3_witness :
    0 ∈ (beginSend (beginSend ⟨none, []⟩ 0) 1).abortedIds ∧
    (beginSend (beginSend ⟨none, []⟩ 0) 1).current = some 1 ∧
    (sendRun (fun _ => FetchOutcome.aborted) initialEffects).result =
      Except.error TerminalError.cancelled :=
  c3_at_most_one_inflight ⟨none, []⟩ 0 1 (fun _ => FetchOutcome.aborted) initialEffects
    (fun _ _ _ => ⟨AttemptError.abortErr, rfl⟩) rfl

/-! ## Claim C4 -/

/-- Claim C4: a 2xx response whose body decodes to a legacy-shaped object
    carrying answer "hello" and no success field resolves on the first
    attempt with the bare text "hello", whose NormalizedResult view is the
    pair of text "hello" and a null audio reference. -/
theorem c4_legacy_answer (outcomes : Nat → FetchOutcome) (s : Nat) (b : String)
    (fields : List (String × JsonVal)) (eff : Effects)
    (hok : statusOk s = true)
    (h0 : outcomes 0 = FetchOutcome.response s (some b))
    (hparse : JSON.parse b = some (JsonVal.obj fields))
    (hnosucc : getLastField fields "success" = none)
    (hans : getLastField fields "answer" = some (JsonVal.str "hello")) :
    sendRun outcomes eff =
      ⟨Except.ok (SendValue.textOnly (JsonVal.str "hello")), [], eff⟩ ∧
    toNormalized (SendValue.textOnly (JsonVal.str "hello")) =
      ⟨JsonVal.str "hello", none⟩ := by
  have hstep : attemptStep (outcomes 0) eff =
      (Except.ok (SendValue.textOnly (JsonVal.str "hello")), eff) := by
    rw [h0]
    simp [attemptStep, hok, parseBody, hparse, normalizeData, structGuard, jsGet,
      hnosucc, truthy, answerOf, hans]
  refine ⟨?_, rfl⟩
  show sendLoop _ 5 0 [] eff = _
  rw [sendLoop_ok _ 4 0 [] eff _ eff (by decide) hstep]
  rfl

/-- Witness for c4_legacy_answer on the literal legacy body. -/
theorem c4_legacy_answer_witness :
    sendRun (fun _ => FetchOutcome.response 200 (some "\x7b\"answer\":\"hello\"\x7d"))
        initialEffects =
      ⟨Except.ok (SendValue.textOnly (JsonVal.str "hello")), [], initialEffects⟩ ∧
    toNormalized (SendValue.textOnly (JsonVal.str "hello")) =
      ⟨JsonVal.str "hello", none⟩ :=
  c4_legacy_answer (fun _ => FetchOutcome.response 200 (some "\x7b\"answer\":\"hello\"\x7d"))
    200 "\x7b\"answer\":\"hello\"\x7d" [("answer", JsonVal.str "hello")] initialEffects
    rfl rfl rfl rfl rfl

/-! ## Claim C5 -/

/-- Claim C5, counterexample to the claim as stated.  A 2xx structured reply
    whose audio payload is a present string that is not valid base64 can
    still make send reject: with textResponse the string "null", the parsed
    text payload is JSON null, so the text-only fallback that follows the
    atob failure throws reading .answer of null, the attempt fails, and the
    call ends in the terminal server error instead of resolving. -/
theorem c5_counterexample :
    atob (stripDataUrl "!!!!") = none ∧
    (sendRun (fun _ => FetchOutcome.response 200
        (some "\x7b\"success\":true,\"textResponse\":\"null\",\"audioResponse\":\"!!!!\"\x7d"))
      initialEffects).result = Except.error TerminalError.server :=
  ⟨rfl, rfl⟩

/-- Claim C5 (amended): for every 2xx structured reply whose audio payload
    is a present, truthy string that fails base64 decoding, provided the
    parsed text payload is not JSON null, the normalization resolves with a
    text-only value taken from the parsed answer/response selection and a
    null audio reference, and the audio decoding failure never makes the
    attempt throw. -/
theorem c5_text_only_on_bad_audio (fields : List (String × JsonVal))
    (tv : JsonVal) (s : String) (eff : Effects)
    (hsucc : truthy (getLastField fields "success") = true)
    (htv : getLastField fields "textResponse" = some tv)
    (htvt : truthy (some tv) = true)
    (hav : getLastField fields "audioResponse" = some (JsonVal.str s))
    (hs : s ≠ "")
    (hbad : atob (stripDataUrl s) = none)
    (hnn : textDataOf tv ≠ JsonVal.null) :
    ∃ v, answerOf (textDataOf tv) = Except.ok v ∧
      normalizeData (JsonVal.obj fields) eff =
        (Except.ok (SendValue.textOnly v), eff) ∧
      (toNormalized (SendValue.textOnly v)).audioUrl = none := by
  obtain ⟨v, hv⟩ := answerOf_ok_of_ne_null _ hnn
  have hst : truthy (some (JsonVal.str s)) = true := by simp [truthy, hs]
  refine ⟨v, hv, ?_, rfl⟩
  simp [normalizeData, structGuard, jsGet, hsucc, htv, htvt, hav, hst,
    structuredCore, hbad, hv]

/-- Witness for c5_text_only_on_bad_audio: answer "hi", audio payload of
    characters outside the base64 alphabet. -/
theorem c5_text_only_witness :
    ∃ v, answerOf (textDataOf (JsonVal.str "\x7b\"answer\":\"hi\"\x7d")) = Except.ok v ∧
      normalizeData (JsonVal.obj [("success", JsonVal.bool true),
        ("textResponse", JsonVal.str "\x7b\"answer\":\"hi\"\x7d"),
        ("audioResponse", JsonVal.str "!!!!")]) initialEffects =
        (Except.ok (SendValue.textOnly v), initialEffects) ∧
      (toNormalized (SendValue.textOnly v)).audioUrl = none :=
  c5_text_only_on_bad_audio
    [("success", JsonVal.bool true),
      ("textResponse", JsonVal.str "\x7b\"answer\":\"hi\"\x7d"),
      ("audioResponse", JsonVal.str "!!!!")]
    (JsonVal.str "\x7b\"answer\":\"hi\"\x7d") "!!!!" initialEffects
    rfl rfl rfl rfl (by decide) rfl (fun h => JsonVal.noConfusion h)

/-! ## Claim C6 -/

/-- Claim C6, counterexample to the claim as stated.  A 2xx response whose
    body is neither JSON nor extractable text (no body text at all) does not
    resolve with the placeholder: the attempt throws a parse error, the call
    retries and finally rejects with the terminal server error. -/
theorem c6_counterexample :
    (sendRun (fun _ => FetchOutcome.response 200 none) initialEffects).result =
      Except.error TerminalError.server ∧
    (Except.error TerminalError.server : Except TerminalError SendValue) ≠
      Except.ok (SendValue.textOnly (JsonVal.str "Vastausta ei saatu.")) :=
  ⟨rfl, fun h => Except.noConfusion h⟩

/-- Claim C6 (amended): a 2xx response whose body text fails the JSON parse
    (and hence also the secondary parse of the same text) is wrapped as a
    minimal fallback object, and the call resolves immediately with the
    fixed placeholder text; but when the body has no extractable text at
    all, the attempt raises a parse error instead, which is retried on
    non-final attempts and surfaces as the terminal server error when every
    attempt is such a response. -/
theorem c6_body_fallback :
    (∀ (outcomes : Nat → FetchOutcome) (s : Nat) (t : String) (eff : Effects),
      statusOk s = true → outcomes 0 = FetchOutcome.response s (some t) →
      JSON.parse t = none →
      sendRun outcomes eff =
        ⟨Except.ok (SendValue.textOnly (JsonVal.str "Vastausta ei saatu.")), [], eff⟩) ∧
    (∀ (s : Nat) (eff : Effects), statusOk s = true →
      sendRun (fun _ => FetchOutcome.response s none) eff =
        ⟨Except.error TerminalError.server, [1000, 2000, 4000], eff⟩) := by
  constructor
  · intro outcomes s t eff hok h0 hparse
    have hstep : attemptStep (outcomes 0) eff =
        (Except.ok (SendValue.textOnly (JsonVal.str "Vastausta ei saatu.")), eff) := by
      rw [h0]
      simp [attemptStep, hok, parseBody, hparse, normalizeData, structGuard, jsGet,
        getLastField, truthy, answerOf]
    show sendLoop _ 5 0 [] eff = _
    rw [sendLoop_ok _ 4 0 [] eff _ eff (by decide) hstep]
    rfl
  · intro s eff hok
    have hstep : ∀ e2, attemptStep (FetchOutcome.response s none) e2 =
        (Except.error AttemptError.parseErr, e2) := by
      intro e2
      simp [attemptStep, hok, parseBody]
    show sendLoop _ 5 0 [] eff = _
    rw [sendLoop_fail_cont _ 4 0 [] eff _ eff (by decide) (by decide) (hstep eff),
      sendLoop_fail_cont _ 3 1 _ eff _ eff (by decide) (by decide) (hstep eff),
      sendLoop_fail_cont _ 2 2 _ eff _ eff (by decide) (by decide) (hstep eff),
      show (2 + 1 : Nat) = MAX_RETRIES from rfl,
      sendLoop_fail_last _ 1 _ eff _ eff (hstep eff)]
    simp [backoffDelay, RETRY_DELAY_MS, classify, MAX_RETRIES]

/-- Witness for c6_body_fallback: an unparsable but extractable body "not
    json" resolves with the placeholder; a bodyless 204 on every attempt
    rejects with the server error after the three backoff delays. -/
theorem c6_body_fallback_witness :
    sendRun (fun _ => FetchOutcome.response 200 (some "not json")) initialEffects =
      ⟨Except.ok (SendValue.textOnly (JsonVal.str "Vastausta ei saatu.")), [],
        initialEffects⟩ ∧
    sendRun (fun _ => FetchOutcome.response 204 none) initialEffects =
      ⟨Except.error TerminalError.server, [1000, 2000, 4000], initialEffects⟩ :=
  ⟨c6_body_fallback.1 (fun _ => FetchOutcome.response 200 (some "not json"))
      200 "not json" initialEffects rfl rfl rfl,
    c6_body_fallback.2 204 initialEffects rfl⟩

/-! ## Claim C7 -/

def c7fields : List (String × JsonVal) :=
  [("success", JsonVal.bool true), ("textResponse", JsonVal.str ""),
    ("audioResponse", JsonVal.str "QQ==")]

/-- Claim C7, counterexample to the claim as stated.  In this reply success
    is exactly true and both payload fields are present, yet the structured
    branch is not taken: the empty textResponse string is falsy, so the
    guard evaluates to false and the reply is normalized down the legacy
    path with no audio URL created.  Presence plus success === true is
    therefore not the branch condition. -/
theorem c7_counterexample :
    getLastField c7fields "success" = some (JsonVal.bool true) ∧
    getLastField c7fields "textResponse" = some (JsonVal.str "") ∧
    getLastField c7fields "audioResponse" = some (JsonVal.str "QQ==") ∧
    structGuard (JsonVal.obj c7fields) = Except.ok false ∧
    normalizeData (JsonVal.obj c7fields) initialEffects =
      (Except.ok (SendValue.textOnly (JsonVal.str "Vastausta ei saatu.")),
        initialEffects) :=
  ⟨rfl, rfl, rfl, rfl, rfl⟩

/-- Claim C7 (amended): for every decoded object reply, the structured
    branch is taken exactly when the success, textResponse and audioResponse
    fields are all truthy in the JS sense: the guard computes that
    conjunction, a false conjunction routes the reply to the legacy
    selection, and a true conjunction routes it to the structured branch on
    the two (then necessarily present) payload values. -/
theorem c7_branch_condition (fields : List (String × JsonVal)) (eff : Effects) :
    structGuard (JsonVal.obj fields) =
      Except.ok (truthy (getLastField fields "success") &&
        (truthy (getLastField fields "textResponse") &&
         truthy (getLastField fields "audioResponse"))) ∧
    ((truthy (getLastField fields "success") &&
        (truthy (getLastField fields "textResponse") &&
         truthy (getLastField fields "audioResponse"))) = false →
      normalizeData (JsonVal.obj fields) eff =
        (match answerOf (JsonVal.obj fields) with
         | Except.ok v => (Except.ok (SendValue.textOnly v), eff)
         | Except.error _ => (Except.error AttemptError.normErr, eff))) ∧
    ((truthy (getLastField fields "success") &&
        (truthy (getLastField fields "textResponse") &&
         truthy (getLastField fields "audioResponse"))) = true →
      ∃ tv av, getLastField fields "textResponse" = some tv ∧
        getLastField fields "audioResponse" = some av ∧
        normalizeData (JsonVal.obj fields) eff = structuredCore tv av eff) := by
  have hg : structGuard (JsonVal.obj fields) =
      Except.ok (truthy (getLastField fields "success") &&
        (truthy (getLastField fields "textResponse") &&
         truthy (getLastField fields "audioResponse"))) := by
    simp only [structGuard, jsGet]
    cases hs : truthy (getLastField fields "success")
    · simp
    · cases ht : truthy (getLastField fields "textResponse") <;> simp
  refine ⟨hg, ?_, ?_⟩
  · intro hfalse
    simp only [normalizeData, hg, hfalse]
  · intro htrue
    simp only [Bool.and_eq_true] at htrue
    obtain ⟨h1, h2, h3⟩ := htrue
    obtain ⟨tv, htv⟩ := truthy_some _ h2
    obtain ⟨av, hav⟩ := truthy_some _ h3
    refine ⟨tv, av, htv, hav, ?_⟩
    rw [htv] at h2
    rw [hav] at h3
    simp only [normalizeData, hg, h1, htv, hav, h2, h3, Bool.and_self, jsGet]

def c7witFields : List (String × JsonVal) :=
  [("success", JsonVal.num 1), ("textResponse", JsonVal.str "\x7b\"answer\":\"y\"\x7d"),
    ("audioResponse", JsonVal.str "AAAA")]

/-- Witness for c7_branch_condition: success is the truthy number 1 (not
    the boolean true) and both payloads are truthy, and the structured
    branch is taken. -/
theorem c7_branch_condition_witness :
    structGuard (JsonVal.obj c7witFields) =
      Except.ok (truthy (getLastField c7witFields "success") &&
        (truthy (getLastField c7witFields "textResponse") &&
         truthy (getLastField c7witFields "audioResponse"))) ∧
    ∃ tv av, getLastField c7witFields "textResponse" = some tv ∧
      getLastField c7witFields "audioResponse" = some av ∧
      normalizeData (JsonVal.obj c7witFields) initialEffects =
        structuredCore tv av initialEffects :=
  ⟨(c7_branch_condition c7witFields initialEffects).1,
    (c7_branch_condition c7witFields initialEffects).2.2 rfl⟩

/-! ## Claim C8 -/

def c8reply : JsonVal :=
  JsonVal.obj [("success", JsonVal.bool true),
    ("textResponse", JsonVal.str "\x7b\"answer\":\"hi\"\x7d"),
    ("audioResponse", JsonVal.str "AAAA")]

/-- Claim C8, counterexample to the claim as stated.  Decoding the same
    structured reply twice does not yield an identical NormalizedResult:
    each decode creates a fresh object URL, so the two audioUrl components
    differ (the URL store is hidden mutable state behind the decoder). -/
theorem c8_counterexample :
    (normalizeData c8reply initialEffects).1 =
      Except.ok (SendValue.withAudio (JsonVal.str "hi") "blob:local/0") ∧
    (normalizeData c8reply (normalizeData c8reply initialEffects).2).1 =
      Except.ok (SendValue.withAudio (JsonVal.str "hi") "blob:local/1") ∧
    ("blob:local/0" : String) ≠ "blob:local/1" :=
  ⟨rfl, rfl, by decide⟩

/-- Effect-independence of the structured branch apart from the URL: for
    any two starting states, the text component, the success of the decode
    and the registered audio bytes coincide. -/
theorem structuredCore_eff (tv av : JsonVal) (e1 e2 : Effects) :
    decodeText (structuredCore tv av e1) = decodeText (structuredCore tv av e2) ∧
    okQ (structuredCore tv av e1).1 = okQ (structuredCore tv av e2).1 ∧
    (structuredCore tv av e1).2.blobs.drop e1.blobs.length =
      (structuredCore tv av e2).2.blobs.drop e2.blobs.length := by
  cases av with
  | str s =>
    rcases hb : atob (stripDataUrl s) with _ | bytes <;>
      rcases han : answerOf (textDataOf tv) with u | txt <;>
      simp [structuredCore, hb, han, createObjectURL, decodeText, okQ, textOf,
        List.drop_left, List.drop_length]
  | null =>
    rcases han : answerOf (textDataOf tv) with u | txt <;>
      simp [structuredCore, han, decodeText, okQ, textOf, List.drop_length]
  | bool b =>
    rcases han : answerOf (textDataOf tv) with u | txt <;>
      simp [structuredCore, han, decodeText, okQ, textOf, List.drop_length]
  | num n =>
    rcases han : answerOf (textDataOf tv) with u | txt <;>
      simp [structuredCore, han, decodeText, okQ, textOf, List.drop_length]
  | arr xs =>
    rcases han : answerOf (textDataOf tv) with u | txt <;>
      simp [structuredCore, han, decodeText, okQ, textOf, List.drop_length]
  | obj fs =>
    rcases han : answerOf (textDataOf tv) with u | txt <;>
      simp [structuredCore, han, decodeText, okQ, textOf, List.drop_length]

/-- Claim C8 (amended): normalization is a deterministic function of the
    reply and of the object-URL allocation state.  Across repeated decodes
    of the same reply from any two states, the text component, the
    success of the decode and the newly registered audio blobs (hence the
    audio bytes) are identical; only the freshly allocated audio URL
    differs, as the counterexample exhibits. -/
theorem c8_decode_deterministic (data : JsonVal) (e1 e2 : Effects) :
    decodeText (normalizeData data e1) = decodeText (normalizeData data e2) ∧
    okQ (normalizeData data e1).1 = okQ (normalizeData data e2).1 ∧
    createdBlobs data e1 = createdBlobs data e2 := by
  rcases hsg : structGuard data with u | b
  · simp [createdBlobs, normalizeData, hsg, decodeText, okQ, List.drop_length]
  · cases b
    · rcases ha : answerOf data with u | v <;>
        simp [createdBlobs, normalizeData, hsg, ha, decodeText, okQ, textOf,
          List.drop_length]
    · rcases ht : jsGet data "textResponse" with u | ot
      · simp [createdBlobs, normalizeData, hsg, ht, decodeText, okQ, List.drop_length]
      · rcases ha2 : jsGet data "audioResponse" with u | oa
        · simp [createdBlobs, normalizeData, hsg, ht, ha2, decodeText, okQ,
            List.drop_length]
        · cases ot with
          | none =>
            simp [createdBlobs, normalizeData, hsg, ht, ha2, decodeText, okQ,
              List.drop_length]
          | some tv =>
            cases oa with
            | none =>
              simp [createdBlobs, normalizeData, hsg, ht, ha2, decodeText, okQ,
                List.drop_length]
            | some av =>
              simp only [createdBlobs, normalizeData, hsg, ht, ha2]
              exact structuredCore_eff tv av e1 e2

/-! ## Claim C9 -/

/-- Claim C9: on a mobile user agent, a blob whose declared type does not
    contain "webm" is re-wrapped for upload with the type label audio/webm
    and its bytes unchanged; in every other case the uploaded blob is the
    input blob, bytes and type label both unchanged. -/
theorem c9_blob_normalization (st : WSState) (fresh : Nat) (ua : String) (b : Blob)
    (outcomes : Nat → FetchOutcome) (eff : Effects) :
    ((isMobile ua = true ∧ containsSub b.type "webm" = false) →
      (sendAudioToWebhook st fresh ua b outcomes eff).uploaded =
        ⟨b.bytes, "audio/webm"⟩) ∧
    ((isMobile ua = false ∨ containsSub b.type "webm" = true) →
      (sendAudioToWebhook st fresh ua b outcomes eff).uploaded = b) := by
  constructor
  · rintro ⟨h1, h2⟩
    simp [sendAudioToWebhook, processBlob, h1, h2]
  · rintro (h | h) <;> simp [sendAudioToWebhook, processBlob, h]

/-- Witness for c9_blob_normalization: an iPhone user agent with an
    audio/mp4 blob gets the audio/webm label on the same bytes, and a
    desktop user agent keeps its blob untouched. -/
theorem c9_blob_normalization_witness :
    (sendAudioToWebhook ⟨none, []⟩ 0 "Mozilla/5.0 (iPhone; CPU iPhone OS 16_0)"
        ⟨[1, 2, 3], "audio/mp4"⟩ (fun _ => FetchOutcome.timeout) initialEffects).uploaded =
      ⟨[1, 2, 3], "audio/webm"⟩ ∧
    (sendAudioToWebhook ⟨none, []⟩ 0 "Mozilla/5.0 (Windows NT 10.0)"
        ⟨[1, 2, 3], "audio/mp4"⟩ (fun _ => FetchOutcome.timeout) initialEffects).uploaded =
      ⟨[1, 2, 3], "audio/mp4"⟩ :=
  ⟨(c9_blob_normalization ⟨none, []⟩ 0 "Mozilla/5.0 (iPhone; CPU iPhone OS 16_0)"
      ⟨[1, 2, 3], "audio/mp4"⟩ (fun _ => FetchOutcome.timeout) initialEffects).1
      ⟨by decide, by decide⟩,
    (c9_blob_normalization ⟨none, []⟩ 0 "Mozilla/5.0 (Windows NT 10.0)"
      ⟨[1, 2, 3], "audio/mp4"⟩ (fun _ => FetchOutcome.timeout) initialEffects).2
      (Or.inl (by decide))⟩

/-! ## Claim C10 -/

/-- Claim C10: whenever the audio payload of a structured reply decodes
    from base64, the playable blob created from the decoded bytes carries
    the fixed MIME type audio/mpeg, whatever audio subtype an optional
    leading data-URL marker declared - the payload string s is arbitrary
    here, and the registered blob is always typed audio/mpeg. -/
theorem c10_audio_blob_mpeg (fields : List (String × JsonVal)) (tv : JsonVal)
    (s : String) (bytes : List Nat) (txt : JsonVal) (eff : Effects)
    (hsucc : truthy (getLastField fields "success") = true)
    (htv : getLastField fields "textResponse" = some tv)
    (htvt : truthy (some tv) = true)
    (hav : getLastField fields "audioResponse" = some (JsonVal.str s))
    (hs : s ≠ "")
    (hgood : atob (stripDataUrl s) = some bytes)
    (han : answerOf (textDataOf tv) = Except.ok txt) :
    normalizeData (JsonVal.obj fields) eff =
      (Except.ok (SendValue.withAudio txt (objectURL eff.ctr)),
        ⟨eff.ctr + 1, eff.blobs ++ [⟨bytes, "audio/mpeg"⟩]⟩) := by
  have hst : truthy (some (JsonVal.str s)) = true := by simp [truthy, hs]
  simp [normalizeData, structGuard, jsGet, hsucc, htv, htvt, hav, hst,
    structuredCore, hgood, han, createObjectURL]

/-- Witness for c10_audio_blob_mpeg: a payload with a data:audio/wav prefix
    still produces a blob labeled audio/mpeg. -/
theorem c10_audio_blob_mpeg_witness :
    normalizeData (JsonVal.obj [("success", JsonVal.bool true),
      ("textResponse", JsonVal.str "\x7b\"answer\":\"ok\"\x7d"),
      ("audioResponse", JsonVal.str "data:audio/wav;base64,QUJD")]) initialEffects =
      (Except.ok (SendValue.withAudio (JsonVal.str "ok") (objectURL 0)),
        ⟨1, [⟨[65, 66, 67], "audio/mpeg"⟩]⟩) :=
  c10_audio_blob_mpeg
    [("success", JsonVal.bool true),
      ("textResponse", JsonVal.str "\x7b\"answer\":\"ok\"\x7d"),
      ("audioResponse", JsonVal.str "data:audio/wav;base64,QUJD")]
    (JsonVal.str "\x7b\"answer\":\"ok\"\x7d") "data:audio/wav;base64,QUJD"
    [65, 66, 67] (JsonVal.str "ok") initialEffects
    rfl rfl rfl rfl (by decide) rfl rfl

end Muisti

